import Mathlib

set_option linter.unusedVariables false

/-!
Verification of the Node Control Facade (ldk-node-flutter).

The facade source is src/rust/src/ldk.rs (NodePointer and the builder entry
points) and src/native/src/bridge_generated.rs (generated enum marshaling).
The Node Engine itself (the ldk_node crate) and the element translations in
types.rs are not part of the sources; where their behaviour decides a claim
they are modelled from the spec, and each such definition carries a doc
comment starting with "Modelled from the spec:".
-/

namespace Ldk

/- ===================== Wire record types (spec section 3/6) ===================== -/

/-- Lifecycle phase of the handle: Built, Running, Stopped (spec section 3). -/
inductive Phase where
  | built
  | running
  | stopped
deriving DecidableEq

/-- Wire PublicKey record: string-backed, as built in ldk.rs node_id. -/
structure PublicKey where
  internal : String
deriving DecidableEq

/-- Wire Address record: string-backed, as built in ldk.rs new_onchain_address. -/
structure Address where
  internal : String
deriving DecidableEq

/-- Wire Txid record: string-backed, as built in ldk.rs send_to_onchain_address. -/
structure Txid where
  internal : String
deriving DecidableEq

/-- Wire Invoice record: string-backed, as built in ldk.rs receive_payment. -/
structure Invoice where
  internal : String
deriving DecidableEq

/-- Wire NetAddress record: string-backed peer network address. -/
structure NetAddress where
  internal : String
deriving DecidableEq

/-- Wire ChannelId record: string-backed opaque channel id. -/
structure ChannelId where
  internal : String
deriving DecidableEq

/-- Wire PaymentHash record: the 32 payment-hash bytes, as in ldk.rs send_payment
(PaymentHash is built from the raw byte array e.0). Bytes are modelled as Nat. -/
structure PaymentHash where
  internal : List Nat
deriving DecidableEq

/-- Wire ChannelConfig record. Its fields are opaque to the facade; one numeric
field stands for the whole payload. -/
structure ChannelConfig where
  forwardingFeeBaseMsat : Nat
deriving DecidableEq

/-- Wire payment direction (crate::types::PaymentDirection). -/
inductive PaymentDirection where
  | inbound
  | outbound
deriving DecidableEq

/-- Wire payment status (crate::types::PaymentStatus), also marshaled by
bridge_generated.rs. -/
inductive PaymentStatus where
  | pending
  | succeeded
  | failed
deriving DecidableEq

/- ===================== Engine-native domain types ===================== -/

/-- Modelled from the spec: the engine-native payment direction (ldk_node is not
under src/). -/
inductive EngineDirection where
  | inbound
  | outbound
deriving DecidableEq

/-- Modelled from the spec: the engine-native payment status (ldk_node is not
under src/). -/
inductive EngineStatus where
  | pending
  | succeeded
  | failed
deriving DecidableEq

/-- Modelled from the spec: an engine-native channel record (ldk_node
ChannelDetails is not under src/); carries the fields the wire record needs. -/
structure EngineChannel where
  channelIdText : String
  isReady : Bool
deriving DecidableEq

/-- Modelled from the spec: an engine-native payment record (ldk_node
PaymentDetails is not under src/). -/
structure EnginePayment where
  hash : List Nat
  direction : EngineDirection
  amountMsat : Option Nat
  status : EngineStatus
deriving DecidableEq

/-- Modelled from the spec: an engine-native peer record (ldk_node PeerDetails
is not under src/). -/
structure EnginePeer where
  nodeIdText : String
  isConnected : Bool
deriving DecidableEq

/-- Modelled from the spec: engine-native channel config (ldk_node
ChannelConfig is not under src/). -/
structure EngineChannelConfig where
  forwardingFeeBaseMsat : Nat
deriving DecidableEq

/-- Arguments of the engine call node.connect_open_channel, in the positional
order of the call site at ldk.rs lines 241-248: node_id first, address second,
then amount, push amount, channel config, announce flag. -/
structure EngineOpenChannelArgs where
  nodeId : String
  address : String
  channelAmountSats : Nat
  pushToCounterpartyMsat : Option Nat
  channelConfig : Option EngineChannelConfig
  announceChannel : Bool
deriving DecidableEq

/- ===================== Domain Translator (wire <-> engine) ===================== -/

/-- Modelled from the spec: wire-to-engine key translation via the canonical
text encoding (the Into impls live in types.rs, which is not under src/). -/
def publicKeyToEngine (p : PublicKey) : String := p.internal

/-- Modelled from the spec: wire-to-engine net-address translation via the
canonical text encoding (types.rs is not under src/). -/
def netAddressToEngine (a : NetAddress) : String := a.internal

/-- Modelled from the spec: wire-to-engine address translation via the
canonical text encoding (types.rs is not under src/). -/
def addressToEngine (a : Address) : String := a.internal

/-- Modelled from the spec: wire-to-engine invoice translation via the
canonical text encoding (types.rs is not under src/). -/
def invoiceToEngine (i : Invoice) : String := i.internal

/-- Modelled from the spec: wire-to-engine channel-id translation via the
canonical text encoding (types.rs is not under src/). -/
def channelIdToEngine (c : ChannelId) : String := c.internal

/-- Modelled from the spec: wire-to-engine channel-config translation
(types.rs is not under src/). -/
def channelConfigToEngine (c : ChannelConfig) : EngineChannelConfig :=
  { forwardingFeeBaseMsat := c.forwardingFeeBaseMsat }

/-- Modelled from the spec: engine-to-wire direction translation, exhaustive
and order-preserving (types.rs is not under src/). -/
def directionFromEngine (d : EngineDirection) : PaymentDirection :=
  match d with
  | EngineDirection.inbound => PaymentDirection.inbound
  | EngineDirection.outbound => PaymentDirection.outbound

/-- Modelled from the spec: wire-to-engine direction translation, exhaustive
and order-preserving (types.rs is not under src/). -/
def directionToEngine (d : PaymentDirection) : EngineDirection :=
  match d with
  | PaymentDirection.inbound => EngineDirection.inbound
  | PaymentDirection.outbound => EngineDirection.outbound

/-- Modelled from the spec: engine-to-wire status translation, exhaustive and
order-preserving (types.rs is not under src/). -/
def statusFromEngine (st : EngineStatus) : PaymentStatus :=
  match st with
  | EngineStatus.pending => PaymentStatus.pending
  | EngineStatus.succeeded => PaymentStatus.succeeded
  | EngineStatus.failed => PaymentStatus.failed

/-- Wire channel record (ChannelDetails), holding the translated engine fields. -/
structure ChannelDetails where
  channelId : String
  isReady : Bool
deriving DecidableEq

/-- Wire payment record (PaymentDetails). -/
structure PaymentDetails where
  hash : List Nat
  direction : PaymentDirection
  amountMsat : Option Nat
  status : PaymentStatus
deriving DecidableEq

/-- Wire peer record (PeerDetails). -/
structure PeerDetails where
  nodeId : String
  isConnected : Bool
deriving DecidableEq

/-- Modelled from the spec: per-element engine-to-wire channel translation (the
From impl in types.rs is not under src/). -/
def channelFromEngine (c : EngineChannel) : ChannelDetails :=
  { channelId := c.channelIdText, isReady := c.isReady }

/-- Modelled from the spec: per-element engine-to-wire payment translation (the
From impl in types.rs is not under src/). -/
def paymentFromEngine (p : EnginePayment) : PaymentDetails :=
  { hash := p.hash
    direction := directionFromEngine p.direction
    amountMsat := p.amountMsat
    status := statusFromEngine p.status }

/-- Modelled from the spec: per-element engine-to-wire peer translation (the
From impl in types.rs is not under src/). -/
def peerFromEngine (p : EnginePeer) : PeerDetails :=
  { nodeId := p.nodeIdText, isConnected := p.isConnected }

/-- Modelled from the spec: engine-to-wire event translation. Events are
opaque engine notifications; they are modelled as Nat and carried across
unchanged (the From impl in types.rs is not under src/). -/
def eventFromEngine (e : Nat) : Nat := e

/- ===================== Engine state (spec sections 3, 6, 7) ===================== -/

/-- Modelled from the spec: the observable state of one Node Engine instance
(the ldk_node crate is not under src/). Query results that the spec leaves
opaque are carried as state fields. -/
structure EngineState where
  phase : Phase
  queue : List Nat
  nodeIdText : String
  listenAddrText : Option String
  freshAddrText : String
  spendableSats : Nat
  totalSats : Nat
  txidText : String
  tempIdText : String
  channels : List EngineChannel
  payments : List EnginePayment
  peers : List EnginePeer
  invoiceText : String
  phBytes : List Nat
  signedText : String
  verifyOk : Bool
  opFails : Bool
  errText : String
  lastOpenArgs : Option EngineOpenChannelArgs
deriving DecidableEq

/-- Modelled from the spec: failure mode of a fallible engine operation
(spec section 7): NotRunning whenever the engine is not Running; otherwise an
engine-reported OperationError text when the opFails flag is set; otherwise
the call succeeds. Errors never change engine state. -/
def EngineState.failing (s : EngineState) : Option String :=
  if s.phase = Phase.running then
    (if s.opFails then some s.errText else none)
  else some "NotRunning"

/-- Modelled from the spec: engine start (ldk_node is not under src/): succeeds
from Built and transitions to Running; fails from any other phase; a failed
start leaves the phase unchanged. -/
def Engine.start (s : EngineState) : Except String Unit × EngineState :=
  match s.phase with
  | Phase.built =>
      if s.opFails then (Except.error s.errText, s)
      else (Except.ok (), { s with phase := Phase.running })
  | Phase.running => (Except.error "AlreadyStarted", s)
  | Phase.stopped => (Except.error "StartError", s)

/-- Modelled from the spec: engine stop (ldk_node is not under src/): succeeds
from Running and transitions to Stopped; otherwise fails with NotRunning. -/
def Engine.stop (s : EngineState) : Except String Unit × EngineState :=
  if s.phase = Phase.running then
    (if s.opFails then (Except.error s.errText, s)
     else (Except.ok (), { s with phase := Phase.stopped }))
  else (Except.error "NotRunning", s)

/-- Modelled from the spec: engine event_handled acknowledges and removes the
current head event (spec section 4.3; ldk_node is not under src/). -/
def Engine.eventHandled (s : EngineState) : EngineState :=
  { s with queue := s.queue.tail }

/-- Modelled from the spec: engine next_event is a non-consuming peek at the
head of the event queue (spec section 4.3; ldk_node is not under src/). -/
def Engine.nextEvent (s : EngineState) : Option Nat :=
  s.queue.head?

/-- Modelled from the spec: engine node_id, infallible (the facade source uses
its value directly with no error branch). -/
def Engine.nodeId (s : EngineState) : String := s.nodeIdText

/-- Modelled from the spec: engine listening_address, infallible option. -/
def Engine.listeningAddress (s : EngineState) : Option String := s.listenAddrText

/-- Modelled from the spec: engine new_onchain_address (fallible). -/
def Engine.newOnchainAddress (s : EngineState) : Except String String × EngineState :=
  match s.failing with
  | some e => (Except.error e, s)
  | none => (Except.ok s.freshAddrText, s)

/-- Modelled from the spec: engine spendable_onchain_balance_sats (fallible). -/
def Engine.spendableOnchainBalanceSats (s : EngineState) : Except String Nat × EngineState :=
  match s.failing with
  | some e => (Except.error e, s)
  | none => (Except.ok s.spendableSats, s)

/-- Modelled from the spec: engine total_onchain_balance_sats (fallible). -/
def Engine.totalOnchainBalanceSats (s : EngineState) : Except String Nat × EngineState :=
  match s.failing with
  | some e => (Except.error e, s)
  | none => (Except.ok s.totalSats, s)

/-- Modelled from the spec: engine send_to_onchain_address (fallible), returning
a transaction id. -/
def Engine.sendToOnchainAddress (s : EngineState) (addr : String) (sats : Nat) :
    Except String String × EngineState :=
  match s.failing with
  | some e => (Except.error e, s)
  | none => (Except.ok s.txidText, s)

/-- Modelled from the spec: engine send_all_to_onchain_address (fallible). -/
def Engine.sendAllToOnchainAddress (s : EngineState) (addr : String) :
    Except String String × EngineState :=
  match s.failing with
  | some e => (Except.error e, s)
  | none => (Except.ok s.txidText, s)

/-- Modelled from the spec: engine list_channels, infallible list query. -/
def Engine.listChannels (s : EngineState) : List EngineChannel := s.channels

/-- Modelled from the spec: engine connect (fallible). -/
def Engine.connect (s : EngineState) (nid : String) (addr : String) (persist : Bool) :
    Except String Unit × EngineState :=
  match s.failing with
  | some e => (Except.error e, s)
  | none => (Except.ok (), s)

/-- Modelled from the spec: engine disconnect (fallible). -/
def Engine.disconnect (s : EngineState) (nid : String) : Except String Unit × EngineState :=
  match s.failing with
  | some e => (Except.error e, s)
  | none => (Except.ok (), s)

/-- Modelled from the spec: engine connect_open_channel (fallible), returning a
temporary channel id; the arguments it receives are recorded in the state so
facade argument order is observable. -/
def Engine.connectOpenChannel (s : EngineState) (args : EngineOpenChannelArgs) :
    Except String String × EngineState :=
  match s.failing with
  | some e => (Except.error e, s)
  | none => (Except.ok s.tempIdText, { s with lastOpenArgs := some args })

/-- Modelled from the spec: engine sync_wallets (fallible). -/
def Engine.syncWallets (s : EngineState) : Except String Unit × EngineState :=
  match s.failing with
  | some e => (Except.error e, s)
  | none => (Except.ok (), s)

/-- Modelled from the spec: engine close_channel (fallible). -/
def Engine.closeChannel (s : EngineState) (cid : String) (nid : String) :
    Except String Unit × EngineState :=
  match s.failing with
  | some e => (Except.error e, s)
  | none => (Except.ok (), s)

/-- Modelled from the spec: engine update_channel_config (fallible). -/
def Engine.updateChannelConfig (s : EngineState) (cid : String) (nid : String)
    (cfg : EngineChannelConfig) : Except String Unit × EngineState :=
  match s.failing with
  | some e => (Except.error e, s)
  | none => (Except.ok (), s)

/-- Modelled from the spec: engine send_payment (fallible), returning the
payment-hash bytes. -/
def Engine.sendPayment (s : EngineState) (inv : String) :
    Except String (List Nat) × EngineState :=
  match s.failing with
  | some e => (Except.error e, s)
  | none => (Except.ok s.phBytes, s)

/-- Modelled from the spec: engine send_payment_using_amount (fallible). -/
def Engine.sendPaymentUsingAmount (s : EngineState) (inv : String) (amt : Nat) :
    Except String (List Nat) × EngineState :=
  match s.failing with
  | some e => (Except.error e, s)
  | none => (Except.ok s.phBytes, s)

/-- Modelled from the spec: engine send_spontaneous_payment (fallible). -/
def Engine.sendSpontaneousPayment (s : EngineState) (amt : Nat) (nid : String) :
    Except String (List Nat) × EngineState :=
  match s.failing with
  | some e => (Except.error e, s)
  | none => (Except.ok s.phBytes, s)

/-- Modelled from the spec: engine receive_payment (fallible), returning an
invoice text. -/
def Engine.receivePayment (s : EngineState) (amt : Nat) (desc : String) (expiry : Nat) :
    Except String String × EngineState :=
  match s.failing with
  | some e => (Except.error e, s)
  | none => (Except.ok s.invoiceText, s)

/-- Modelled from the spec: engine receive_variable_amount_payment (fallible). -/
def Engine.receiveVariableAmountPayment (s : EngineState) (desc : String) (expiry : Nat) :
    Except String String × EngineState :=
  match s.failing with
  | some e => (Except.error e, s)
  | none => (Except.ok s.invoiceText, s)

/-- Modelled from the spec: engine payment lookup, an infallible option query. -/
def Engine.payment (s : EngineState) (h : List Nat) : Option EnginePayment :=
  s.payments.find? (fun p => p.hash == h)

/-- Modelled from the spec: engine remove_payment (fallible); true when the hash
was known, and the matching payment is removed from the store. -/
def Engine.removePayment (s : EngineState) (h : List Nat) :
    Except String Bool × EngineState :=
  match s.failing with
  | some e => (Except.error e, s)
  | none =>
      (Except.ok (s.payments.any (fun p => p.hash == h)),
       { s with payments := s.payments.filter (fun p => !(p.hash == h)) })

/-- Modelled from the spec: engine list_payments_with_filter applies the given
direction predicate inside the engine and returns the filtered list. -/
def Engine.listPaymentsWithFilter (s : EngineState) (d : EngineDirection) :
    List EnginePayment :=
  s.payments.filter (fun p => p.direction == d)

/-- Modelled from the spec: engine list_payments, infallible list query. -/
def Engine.listPayments (s : EngineState) : List EnginePayment := s.payments

/-- Modelled from the spec: engine list_peers, infallible list query. -/
def Engine.listPeers (s : EngineState) : List EnginePeer := s.peers

/-- Modelled from the spec: engine sign_message (fallible), returning the
signature text. -/
def Engine.signMessage (s : EngineState) (msg : List Nat) :
    Except String String × EngineState :=
  match s.failing with
  | some e => (Except.error e, s)
  | none => (Except.ok s.signedText, s)

/-- Modelled from the spec: engine verify_signature, infallible boolean query
(the facade wraps its value in Ok unconditionally). -/
def Engine.verifySignature (s : EngineState) (msg : List Nat) (sig : String)
    (pk : String) : Bool :=
  s.verifyOk

/- ===================== Node Handle facade (ldk.rs NodePointer) ===================== -/

/-- Caller-visible outcome of a facade call: a returned success value, a
returned error value (anyhow error text), a panic (unwinding, not a returned
value), or suspension of the calling thread (the blocking wait). -/
inductive Outcome (α : Type) where
  | ok (a : α)
  | err (msg : String)
  | panicked (msg : String)
  | blocked
deriving DecidableEq

/-- True exactly on the panicked outcome. -/
def Outcome.isPanicked {α : Type} : Outcome α → Bool
  | Outcome.panicked _ => true
  | _ => false

/-- True exactly on the err outcome (a returned error value). -/
def Outcome.isErr {α : Type} : Outcome α → Bool
  | Outcome.err _ => true
  | _ => false

/-- True exactly on the ok outcome. -/
def Outcome.isOk {α : Type} : Outcome α → Bool
  | Outcome.ok _ => true
  | _ => false

/-- Drops the success payload, keeping the outcome kind. -/
def Outcome.discard {α : Type} : Outcome α → Outcome Unit
  | Outcome.ok _ => Outcome.ok ()
  | Outcome.err m => Outcome.err m
  | Outcome.panicked m => Outcome.panicked m
  | Outcome.blocked => Outcome.blocked

/-- State of one NodePointer handle: the mutex poison flag plus the engine it
owns (NodePointer is RustOpaque of Mutex of Node in ldk.rs line 66). -/
structure NodeState where
  poisoned : Bool
  engine : EngineState
deriving DecidableEq

/-- Translation of the pattern self.0.lock().unwrap() that begins every
NodePointer method in ldk.rs: unwrap on a poisoned mutex panics before the
engine is reached; otherwise the body runs under the lock. -/
def lockUnwrap {α : Type} (s : NodeState) (body : EngineState → Outcome α × EngineState) :
    Outcome α × NodeState :=
  if s.poisoned then (Outcome.panicked "PoisonError", s)
  else
    let r := body s.engine
    (r.1, { s with engine := r.2 })

/-- NodePointer.start, from ldk.rs lines 73-79: delegates to the engine start
and maps the error to its text. -/
def NodePointer.start (s : NodeState) : Outcome Unit × NodeState :=
  lockUnwrap s (fun es =>
    match Engine.start es with
    | (Except.ok _, es1) => (Outcome.ok (), es1)
    | (Except.error e, es1) => (Outcome.err e, es1))

/-- NodePointer.stop, from ldk.rs lines 84-90. -/
def NodePointer.stop (s : NodeState) : Outcome Unit × NodeState :=
  lockUnwrap s (fun es =>
    match Engine.stop es with
    | (Except.ok _, es1) => (Outcome.ok (), es1)
    | (Except.error e, es1) => (Outcome.err e, es1))

/-- NodePointer.event_handled, from ldk.rs lines 95-98: wraps the infallible
engine acknowledgement in Ok unconditionally. -/
def NodePointer.event_handled (s : NodeState) : Outcome Unit × NodeState :=
  lockUnwrap s (fun es => (Outcome.ok (), Engine.eventHandled es))

/-- NodePointer.next_event, from ldk.rs lines 103-109: a non-consuming peek;
Some is translated element-wise, None is passed through. -/
def NodePointer.next_event (s : NodeState) : Outcome (Option Nat) × NodeState :=
  lockUnwrap s (fun es =>
    (Outcome.ok ((Engine.nextEvent es).map eventFromEngine), es))

/-- NodePointer.wait_until_next_event, from ldk.rs lines 116-119: the guard is
acquired first and the blocking engine wait runs with the guard held; an empty
queue leaves the call suspended (blocked), a head event is returned without
being removed. -/
def NodePointer.wait_until_next_event (s : NodeState) : Outcome Nat × NodeState :=
  lockUnwrap s (fun es =>
    match Engine.nextEvent es with
    | some e => (Outcome.ok (eventFromEngine e), es)
    | none => (Outcome.blocked, es))

/-- NodePointer.node_id, from ldk.rs lines 121-126: wraps the engine value in
Ok unconditionally (there is no error branch in the source). -/
def NodePointer.node_id (s : NodeState) : Outcome PublicKey × NodeState :=
  lockUnwrap s (fun es => (Outcome.ok { internal := Engine.nodeId es }, es))

/-- NodePointer.listening_address, from ldk.rs lines 129-132: an infallible
option query. -/
def NodePointer.listening_address (s : NodeState) : Outcome (Option NetAddress) × NodeState :=
  lockUnwrap s (fun es =>
    (Outcome.ok ((Engine.listeningAddress es).map (fun t => ({ internal := t } : NetAddress))), es))

/-- NodePointer.new_onchain_address, from ldk.rs lines 135-143. -/
def NodePointer.new_onchain_address (s : NodeState) : Outcome Address × NodeState :=
  lockUnwrap s (fun es =>
    match Engine.newOnchainAddress es with
    | (Except.ok e, es1) => (Outcome.ok { internal := e }, es1)
    | (Except.error e, es1) => (Outcome.err e, es1))

/-- NodePointer.spendable_onchain_balance_sats, from ldk.rs lines 145-151. -/
def NodePointer.spendable_onchain_balance_sats (s : NodeState) : Outcome Nat × NodeState :=
  lockUnwrap s (fun es =>
    match Engine.spendableOnchainBalanceSats es with
    | (Except.ok e, es1) => (Outcome.ok e, es1)
    | (Except.error e, es1) => (Outcome.err e, es1))

/-- NodePointer.total_onchain_balance_sats, from ldk.rs lines 154-160. -/
def NodePointer.total_onchain_balance_sats (s : NodeState) : Outcome Nat × NodeState :=
  lockUnwrap s (fun es =>
    match Engine.totalOnchainBalanceSats es with
    | (Except.ok e, es1) => (Outcome.ok e, es1)
    | (Except.error e, es1) => (Outcome.err e, es1))

/-- NodePointer.send_to_onchain_address, from ldk.rs lines 163-175. -/
def NodePointer.send_to_onchain_address (s : NodeState) (address : Address)
    (amount_sats : Nat) : Outcome Txid × NodeState :=
  lockUnwrap s (fun es =>
    match Engine.sendToOnchainAddress es (addressToEngine address) amount_sats with
    | (Except.ok e, es1) => (Outcome.ok { internal := e }, es1)
    | (Except.error e, es1) => (Outcome.err e, es1))

/-- NodePointer.send_all_to_onchain_address, from ldk.rs lines 178-186. -/
def NodePointer.send_all_to_onchain_address (s : NodeState) (address : Address) :
    Outcome Txid × NodeState :=
  lockUnwrap s (fun es =>
    match Engine.sendAllToOnchainAddress es (addressToEngine address) with
    | (Except.ok e, es1) => (Outcome.ok { internal := e }, es1)
    | (Except.error e, es1) => (Outcome.err e, es1))

/-- NodePointer.list_channels, from ldk.rs lines 190-193: element-wise
translation of the plain engine list; there is no error path. -/
def NodePointer.list_channels (s : NodeState) : Outcome (List ChannelDetails) × NodeState :=
  lockUnwrap s (fun es =>
    (Outcome.ok ((Engine.listChannels es).map channelFromEngine), es))

/-- NodePointer.connect, from ldk.rs lines 197-208. -/
def NodePointer.connect (s : NodeState) (node_id : PublicKey) (address : NetAddress)
    (persist : Bool) : Outcome Unit × NodeState :=
  lockUnwrap s (fun es =>
    match Engine.connect es (publicKeyToEngine node_id) (netAddressToEngine address) persist with
    | (Except.ok _, es1) => (Outcome.ok (), es1)
    | (Except.error e, es1) => (Outcome.err e, es1))

/-- NodePointer.disconnect, from ldk.rs lines 214-220. -/
def NodePointer.disconnect (s : NodeState) (counterparty_node_id : PublicKey) :
    Outcome Unit × NodeState :=
  lockUnwrap s (fun es =>
    match Engine.disconnect es (publicKeyToEngine counterparty_node_id) with
    | (Except.ok _, es1) => (Outcome.ok (), es1)
    | (Except.error e, es1) => (Outcome.err e, es1))

/-- NodePointer.connect_open_channel, from ldk.rs lines 231-252: the facade
takes (address, node_id, amount, push, announce, config) and calls the engine
with (node_id, address, amount, push, config, announce); on success the
temporary channel id is discarded and Ok(()) is returned. -/
def NodePointer.connect_open_channel (s : NodeState) (address : NetAddress)
    (node_id : PublicKey) (channel_amount_sats : Nat)
    (push_to_counterparty_msat : Option Nat) (announce_channel : Bool)
    (channel_config : Option ChannelConfig) : Outcome Unit × NodeState :=
  lockUnwrap s (fun es =>
    match Engine.connectOpenChannel es
        (EngineOpenChannelArgs.mk (publicKeyToEngine node_id) (netAddressToEngine address)
          channel_amount_sats push_to_counterparty_msat
          (channel_config.map channelConfigToEngine) announce_channel) with
    | (Except.ok _, es1) => (Outcome.ok (), es1)
    | (Except.error e, es1) => (Outcome.err e, es1))

/-- NodePointer.sync_wallets, from ldk.rs lines 256-262. -/
def NodePointer.sync_wallets (s : NodeState) : Outcome Unit × NodeState :=
  lockUnwrap s (fun es =>
    match Engine.syncWallets es with
    | (Except.ok _, es1) => (Outcome.ok (), es1)
    | (Except.error e, es1) => (Outcome.err e, es1))

/-- NodePointer.close_channel, from ldk.rs lines 264-274. -/
def NodePointer.close_channel (s : NodeState) (channel_id : ChannelId)
    (counterparty_node_id : PublicKey) : Outcome Unit × NodeState :=
  lockUnwrap s (fun es =>
    match Engine.closeChannel es (channelIdToEngine channel_id)
        (publicKeyToEngine counterparty_node_id) with
    | (Except.ok _, es1) => (Outcome.ok (), es1)
    | (Except.error e, es1) => (Outcome.err e, es1))

/-- NodePointer.update_channel_config, from ldk.rs lines 277-292. -/
def NodePointer.update_channel_config (s : NodeState) (channel_id : ChannelId)
    (counterparty_node_id : PublicKey) (channel_config : ChannelConfig) :
    Outcome Unit × NodeState :=
  lockUnwrap s (fun es =>
    match Engine.updateChannelConfig es (channelIdToEngine channel_id)
        (publicKeyToEngine counterparty_node_id) (channelConfigToEngine channel_config) with
    | (Except.ok _, es1) => (Outcome.ok (), es1)
    | (Except.error e, es1) => (Outcome.err e, es1))

/-- NodePointer.send_payment, from ldk.rs lines 294-300: translated success
value or the engine error text. -/
def NodePointer.send_payment (s : NodeState) (invoice : Invoice) :
    Outcome PaymentHash × NodeState :=
  lockUnwrap s (fun es =>
    match Engine.sendPayment es (invoiceToEngine invoice) with
    | (Except.ok e, es1) => (Outcome.ok { internal := e }, es1)
    | (Except.error e, es1) => (Outcome.err e, es1))

/-- NodePointer.send_payment_using_amount, from ldk.rs lines 308-318. -/
def NodePointer.send_payment_using_amount (s : NodeState) (invoice : Invoice)
    (amount_msat : Nat) : Outcome PaymentHash × NodeState :=
  lockUnwrap s (fun es =>
    match Engine.sendPaymentUsingAmount es (invoiceToEngine invoice) amount_msat with
    | (Except.ok e, es1) => (Outcome.ok { internal := e }, es1)
    | (Except.error e, es1) => (Outcome.err e, es1))

/-- NodePointer.send_spontaneous_payment, from ldk.rs lines 321-331. -/
def NodePointer.send_spontaneous_payment (s : NodeState) (amount_msat : Nat)
    (node_id : PublicKey) : Outcome PaymentHash × NodeState :=
  lockUnwrap s (fun es =>
    match Engine.sendSpontaneousPayment es amount_msat (publicKeyToEngine node_id) with
    | (Except.ok e, es1) => (Outcome.ok { internal := e }, es1)
    | (Except.error e, es1) => (Outcome.err e, es1))

/-- NodePointer.receive_payment, from ldk.rs lines 335-348. -/
def NodePointer.receive_payment (s : NodeState) (amount_msat : Nat)
    (description : String) (expiry_secs : Nat) : Outcome Invoice × NodeState :=
  lockUnwrap s (fun es =>
    match Engine.receivePayment es amount_msat description expiry_secs with
    | (Except.ok e, es1) => (Outcome.ok { internal := e }, es1)
    | (Except.error e, es1) => (Outcome.err e, es1))

/-- NodePointer.receive_variable_amount_payment, from ldk.rs lines 351-363. -/
def NodePointer.receive_variable_amount_payment (s : NodeState) (description : String)
    (expiry_secs : Nat) : Outcome Invoice × NodeState :=
  lockUnwrap s (fun es =>
    match Engine.receiveVariableAmountPayment es description expiry_secs with
    | (Except.ok e, es1) => (Outcome.ok { internal := e }, es1)
    | (Except.error e, es1) => (Outcome.err e, es1))

/-- NodePointer.payment, from ldk.rs lines 368-374: an infallible option
query translated element-wise. -/
def NodePointer.payment (s : NodeState) (payment_hash : PaymentHash) :
    Outcome (Option PaymentDetails) × NodeState :=
  lockUnwrap s (fun es =>
    (Outcome.ok ((Engine.payment es payment_hash.internal).map paymentFromEngine), es))

/-- NodePointer.remove_payment, from ldk.rs lines 379-386. -/
def NodePointer.remove_payment (s : NodeState) (payment_hash : PaymentHash) :
    Outcome Bool × NodeState :=
  lockUnwrap s (fun es =>
    match Engine.removePayment es payment_hash.internal with
    | (Except.ok e, es1) => (Outcome.ok e, es1)
    | (Except.error e, es1) => (Outcome.err e, es1))

/-- NodePointer.list_payments_with_filter, from ldk.rs lines 390-401: the
engine filters by direction, the facade translates element-wise. -/
def NodePointer.list_payments_with_filter (s : NodeState)
    (payment_direction : PaymentDirection) : Outcome (List PaymentDetails) × NodeState :=
  lockUnwrap s (fun es =>
    (Outcome.ok ((Engine.listPaymentsWithFilter es
      (directionToEngine payment_direction)).map paymentFromEngine), es))

/-- NodePointer.list_payments, from ldk.rs lines 403-410. -/
def NodePointer.list_payments (s : NodeState) : Outcome (List PaymentDetails) × NodeState :=
  lockUnwrap s (fun es =>
    (Outcome.ok ((Engine.listPayments es).map paymentFromEngine), es))

/-- NodePointer.list_peers, from ldk.rs lines 412-419. -/
def NodePointer.list_peers (s : NodeState) : Outcome (List PeerDetails) × NodeState :=
  lockUnwrap s (fun es =>
    (Outcome.ok ((Engine.listPeers es).map peerFromEngine), es))

/-- NodePointer.sign_message, from ldk.rs lines 426-432. -/
def NodePointer.sign_message (s : NodeState) (msg : List Nat) :
    Outcome String × NodeState :=
  lockUnwrap s (fun es =>
    match Engine.signMessage es msg with
    | (Except.ok e, es1) => (Outcome.ok e, es1)
    | (Except.error e, es1) => (Outcome.err e, es1))

/-- NodePointer.verify_signature, from ldk.rs lines 436-444: the engine boolean
is wrapped in Ok unconditionally. -/
def NodePointer.verify_signature (s : NodeState) (msg : List Nat) (sig : String)
    (pkey : PublicKey) : Outcome Bool × NodeState :=
  lockUnwrap s (fun es =>
    (Outcome.ok (Engine.verifySignature es msg sig (publicKeyToEngine pkey)), es))

/- ===================== Operation enumeration ===================== -/

/-- One NodePointer operation together with its call arguments; one constructor
per public method of the facade in ldk.rs. -/
inductive NodeOp where
  | start
  | stop
  | event_handled
  | next_event
  | wait_until_next_event
  | node_id
  | listening_address
  | new_onchain_address
  | spendable_onchain_balance_sats
  | total_onchain_balance_sats
  | send_to_onchain_address (address : Address) (amount_sats : Nat)
  | send_all_to_onchain_address (address : Address)
  | list_channels
  | connect (node_id : PublicKey) (address : NetAddress) (persist : Bool)
  | disconnect (counterparty_node_id : PublicKey)
  | connect_open_channel (address : NetAddress) (node_id : PublicKey)
      (channel_amount_sats : Nat) (push_to_counterparty_msat : Option Nat)
      (announce_channel : Bool) (channel_config : Option ChannelConfig)
  | sync_wallets
  | close_channel (channel_id : ChannelId) (counterparty_node_id : PublicKey)
  | update_channel_config (channel_id : ChannelId) (counterparty_node_id : PublicKey)
      (channel_config : ChannelConfig)
  | send_payment (invoice : Invoice)
  | send_payment_using_amount (invoice : Invoice) (amount_msat : Nat)
  | send_spontaneous_payment (amount_msat : Nat) (node_id : PublicKey)
  | receive_payment (amount_msat : Nat) (description : String) (expiry_secs : Nat)
  | receive_variable_amount_payment (description : String) (expiry_secs : Nat)
  | payment (payment_hash : PaymentHash)
  | remove_payment (payment_hash : PaymentHash)
  | list_payments_with_filter (payment_direction : PaymentDirection)
  | list_payments
  | list_peers
  | sign_message (msg : List Nat)
  | verify_signature (msg : List Nat) (sig : String) (pkey : PublicKey)
deriving DecidableEq

/-- Runs one facade operation, keeping only the outcome kind. -/
def runOp (op : NodeOp) (s : NodeState) : Outcome Unit × NodeState :=
  match op with
  | NodeOp.start => ((NodePointer.start s).1.discard, (NodePointer.start s).2)
  | NodeOp.stop => ((NodePointer.stop s).1.discard, (NodePointer.stop s).2)
  | NodeOp.event_handled =>
      ((NodePointer.event_handled s).1.discard, (NodePointer.event_handled s).2)
  | NodeOp.next_event => ((NodePointer.next_event s).1.discard, (NodePointer.next_event s).2)
  | NodeOp.wait_until_next_event =>
      ((NodePointer.wait_until_next_event s).1.discard, (NodePointer.wait_until_next_event s).2)
  | NodeOp.node_id => ((NodePointer.node_id s).1.discard, (NodePointer.node_id s).2)
  | NodeOp.listening_address =>
      ((NodePointer.listening_address s).1.discard, (NodePointer.listening_address s).2)
  | NodeOp.new_onchain_address =>
      ((NodePointer.new_onchain_address s).1.discard, (NodePointer.new_onchain_address s).2)
  | NodeOp.spendable_onchain_balance_sats =>
      ((NodePointer.spendable_onchain_balance_sats s).1.discard,
       (NodePointer.spendable_onchain_balance_sats s).2)
  | NodeOp.total_onchain_balance_sats =>
      ((NodePointer.total_onchain_balance_sats s).1.discard,
       (NodePointer.total_onchain_balance_sats s).2)
  | NodeOp.send_to_onchain_address a n =>
      ((NodePointer.send_to_onchain_address s a n).1.discard,
       (NodePointer.send_to_onchain_address s a n).2)
  | NodeOp.send_all_to_onchain_address a =>
      ((NodePointer.send_all_to_onchain_address s a).1.discard,
       (NodePointer.send_all_to_onchain_address s a).2)
  | NodeOp.list_channels =>
      ((NodePointer.list_channels s).1.discard, (NodePointer.list_channels s).2)
  | NodeOp.connect n a p =>
      ((NodePointer.connect s n a p).1.discard, (NodePointer.connect s n a p).2)
  | NodeOp.disconnect c =>
      ((NodePointer.disconnect s c).1.discard, (NodePointer.disconnect s c).2)
  | NodeOp.connect_open_channel a n amt push ann cfg =>
      ((NodePointer.connect_open_channel s a n amt push ann cfg).1.discard,
       (NodePointer.connect_open_channel s a n amt push ann cfg).2)
  | NodeOp.sync_wallets =>
      ((NodePointer.sync_wallets s).1.discard, (NodePointer.sync_wallets s).2)
  | NodeOp.close_channel cid c =>
      ((NodePointer.close_channel s cid c).1.discard, (NodePointer.close_channel s cid c).2)
  | NodeOp.update_channel_config cid c cfg =>
      ((NodePointer.update_channel_config s cid c cfg).1.discard,
       (NodePointer.update_channel_config s cid c cfg).2)
  | NodeOp.send_payment i =>
      ((NodePointer.send_payment s i).1.discard, (NodePointer.send_payment s i).2)
  | NodeOp.send_payment_using_amount i amt =>
      ((NodePointer.send_payment_using_amount s i amt).1.discard,
       (NodePointer.send_payment_using_amount s i amt).2)
  | NodeOp.send_spontaneous_payment amt n =>
      ((NodePointer.send_spontaneous_payment s amt n).1.discard,
       (NodePointer.send_spontaneous_payment s amt n).2)
  | NodeOp.receive_payment amt d exp =>
      ((NodePointer.receive_payment s amt d exp).1.discard,
       (NodePointer.receive_payment s amt d exp).2)
  | NodeOp.receive_variable_amount_payment d exp =>
      ((NodePointer.receive_variable_amount_payment s d exp).1.discard,
       (NodePointer.receive_variable_amount_payment s d exp).2)
  | NodeOp.payment h =>
      ((NodePointer.payment s h).1.discard, (NodePointer.payment s h).2)
  | NodeOp.remove_payment h =>
      ((NodePointer.remove_payment s h).1.discard, (NodePointer.remove_payment s h).2)
  | NodeOp.list_payments_with_filter d =>
      ((NodePointer.list_payments_with_filter s d).1.discard,
       (NodePointer.list_payments_with_filter s d).2)
  | NodeOp.list_payments =>
      ((NodePointer.list_payments s).1.discard, (NodePointer.list_payments s).2)
  | NodeOp.list_peers =>
      ((NodePointer.list_peers s).1.discard, (NodePointer.list_peers s).2)
  | NodeOp.sign_message m =>
      ((NodePointer.sign_message s m).1.discard, (NodePointer.sign_message s m).2)
  | NodeOp.verify_signature m sg p =>
      ((NodePointer.verify_signature s m sg p).1.discard,
       (NodePointer.verify_signature s m sg p).2)

/-- Repeated facade next_event calls: the list of outcomes and the final state. -/
def iterNextEvent : Nat → NodeState → List (Outcome (Option Nat)) × NodeState
  | 0, s => ([], s)
  | n + 1, s =>
      let r := NodePointer.next_event s
      let rest := iterNextEvent n r.2
      (r.1 :: rest.1, rest.2)

/- ===================== Lock discipline trace (for the blocking wait) ===================== -/

/-- One primitive step of a facade method: acquiring the handle mutex,
releasing it, or performing an engine call (blocking or not). -/
inductive LockStep where
  | acquire
  | release
  | engineCall (blocking : Bool)
deriving DecidableEq

/-- Step trace of NodePointer.wait_until_next_event translated from ldk.rs
lines 116-119: the guard node_lock is bound first, wait_next_event (a blocking
engine call) runs on the guard, and the guard is dropped at the end of the
method scope. -/
def waitUntilNextEventSteps : List LockStep :=
  [LockStep.acquire, LockStep.engineCall true, LockStep.release]

/-- Number of acquire steps in a trace. -/
def countAcquires (tr : List LockStep) : Nat :=
  (tr.filter (fun st => st = LockStep.acquire)).length

/-- Number of release steps in a trace. -/
def countReleases (tr : List LockStep) : Nat :=
  (tr.filter (fun st => st = LockStep.release)).length

/-- Whether the handle mutex is held when step i of the trace starts: more
acquires than releases among the earlier steps. -/
def lockHeldBefore (tr : List LockStep) (i : Nat) : Bool :=
  countReleases (tr.take i) < countAcquires (tr.take i)

/- ===================== Builder / configuration resolver (ldk.rs 14-64) ===================== -/

/-- Entropy source family (crate::types::EntropySourceConfig): exactly one
tagged alternative. Seed bytes are modelled as a Nat list of any length, as
delivered over the wire. -/
inductive EntropySourceConfig where
  | seedFile (path : String)
  | seedBytes (bytes : List Nat)
  | bip39Mnemonic (mnemonic : String) (passphrase : Option String)
deriving DecidableEq

/-- Chain data source family (crate::types::ChainDataSourceConfig). -/
inductive ChainDataSourceConfig where
  | esplora (url : String)
deriving DecidableEq

/-- Gossip source family (crate::types::GossipSourceConfig). -/
inductive GossipSourceConfig where
  | p2pNetwork
  | rapidGossipSync (url : String)
deriving DecidableEq

/-- Base configuration record. Its engine payload is opaque to the facade; the
two flags model whether the final engine construction fails (spec section 4.1
BuildError path). -/
structure Config where
  storageDirPath : String
  engineBuildFails : Bool
  engineBuildErrText : String
deriving DecidableEq

/-- Modelled from the spec: the ldk_node Builder (not under src/) as the build
plan it accumulates. -/
structure BuilderModel where
  config : Config
  seedPath : Option String
  seed32 : Option (List Nat)
  mnemonicPhrase : Option (String × Option String)
  esploraUrl : Option String
  gossip : Option GossipSourceConfig
deriving DecidableEq

/-- Modelled from the spec: Builder::from_config starts from the base
configuration with every optional family left at the engine default. -/
def BuilderModel.fromConfig (c : Config) : BuilderModel :=
  { config := c, seedPath := none, seed32 := none, mnemonicPhrase := none,
    esploraUrl := none, gossip := none }

/-- Modelled from the spec: Builder.set_entropy_seed_path (ldk_node not under
src/), infallible. -/
def BuilderModel.setEntropySeedPath (b : BuilderModel) (p : String) : BuilderModel :=
  { b with seedPath := some p }

/-- Modelled from the spec: Builder.set_entropy_seed_bytes (ldk_node not under
src/): validates the byte length is exactly 32 and fails with InvalidSeedBytes
otherwise; no truncation or padding. -/
def BuilderModel.setEntropySeedBytes (b : BuilderModel) (bytes : List Nat) :
    Except String BuilderModel :=
  if bytes.length = 32 then Except.ok { b with seed32 := some bytes }
  else Except.error "InvalidSeedBytes"

/-- Modelled from the spec: Builder.set_entropy_bip39_mnemonic (ldk_node not
under src/), infallible. -/
def BuilderModel.setEntropyBip39Mnemonic (b : BuilderModel) (m : String)
    (pass : Option String) : BuilderModel :=
  { b with mnemonicPhrase := some (m, pass) }

/-- Modelled from the spec: Builder.set_esplora_server (ldk_node not under
src/), infallible. -/
def BuilderModel.setEsploraServer (b : BuilderModel) (url : String) : BuilderModel :=
  { b with esploraUrl := some url }

/-- Modelled from the spec: Builder.set_gossip_source_p2p (ldk_node not under
src/), infallible. -/
def BuilderModel.setGossipSourceP2p (b : BuilderModel) : BuilderModel :=
  { b with gossip := some GossipSourceConfig.p2pNetwork }

/-- Modelled from the spec: Builder.set_gossip_source_rgs (ldk_node not under
src/), infallible. -/
def BuilderModel.setGossipSourceRgs (b : BuilderModel) (url : String) : BuilderModel :=
  { b with gossip := some (GossipSourceConfig.rapidGossipSync url) }

/-- Modelled from the spec: the canonical byte serialization of the seed-bytes
payload handed to the builder (the Writeable encode of the wrapper in types.rs,
which is not under src/): the bytes themselves. -/
def encodeSeed (bytes : List Nat) : List Nat := bytes

/-- Result of computing a value in code that may panic. -/
inductive PanicOr (α : Type) where
  | ok (a : α)
  | panicked (msg : String)
deriving DecidableEq

/-- Translation of Rust Result::expect(msg): the value on Ok, a panic carrying
msg on Err. -/
def expectOr {α : Type} (r : Except String α) (msg : String) : PanicOr α :=
  match r with
  | Except.ok a => PanicOr.ok a
  | Except.error _ => PanicOr.panicked msg

/-- Application of the entropy family inside build_builder (ldk.rs lines 39-50):
SeedBytes goes through set_entropy_seed_bytes(e.encode()).expect, so a
rejected length panics rather than propagating an error value. -/
def applyEntropy (b : BuilderModel) : Option EntropySourceConfig → PanicOr BuilderModel
  | none => PanicOr.ok b
  | some (EntropySourceConfig.seedFile p) => PanicOr.ok (b.setEntropySeedPath p)
  | some (EntropySourceConfig.seedBytes e) =>
      expectOr (b.setEntropySeedBytes (encodeSeed e)) "InvalidSeedBytes"
  | some (EntropySourceConfig.bip39Mnemonic m pass) =>
      PanicOr.ok (b.setEntropyBip39Mnemonic m pass)

/-- Application of the chain data family inside build_builder (ldk.rs 51-55). -/
def applyChainData (b : BuilderModel) : Option ChainDataSourceConfig → BuilderModel
  | none => b
  | some (ChainDataSourceConfig.esplora url) => b.setEsploraServer url

/-- Application of the gossip family inside build_builder (ldk.rs 57-62). -/
def applyGossip (b : BuilderModel) : Option GossipSourceConfig → BuilderModel
  | none => b
  | some GossipSourceConfig.p2pNetwork => b.setGossipSourceP2p
  | some (GossipSourceConfig.rapidGossipSync url) => b.setGossipSourceRgs url

/-- build_builder, from ldk.rs lines 32-64: starts from the base config and
applies each present family in order; a SeedBytes length failure panics here. -/
def build_builder (config : Config) (chain : Option ChainDataSourceConfig)
    (entropy : Option EntropySourceConfig) (gossip : Option GossipSourceConfig) :
    PanicOr BuilderModel :=
  match applyEntropy (BuilderModel.fromConfig config) entropy with
  | PanicOr.panicked m => PanicOr.panicked m
  | PanicOr.ok b1 => PanicOr.ok (applyGossip (applyChainData b1 chain) gossip)

/-- Modelled from the spec: Builder.build, the final engine construction
(ldk_node not under src/): fails with the engine-reported reason when the
config says so, otherwise yields the built plan. -/
def BuilderModel.buildEngine (b : BuilderModel) : Except String BuilderModel :=
  if b.config.engineBuildFails then Except.error b.config.engineBuildErrText
  else Except.ok b

/-- Caller-visible result of build_node: a built node, a returned error value,
or a panic (unwinding, not a returned value). -/
inductive BuildOutcome where
  | ok (plan : BuilderModel)
  | err (msg : String)
  | panicked (msg : String)
deriving DecidableEq

/-- True exactly when the build outcome is a returned error value. -/
def BuildOutcome.isErrReturn : BuildOutcome → Bool
  | BuildOutcome.err _ => true
  | _ => false

/-- True exactly when the build outcome constructed an engine. -/
def BuildOutcome.isBuilt : BuildOutcome → Bool
  | BuildOutcome.ok _ => true
  | _ => false

/-- build_node, from ldk.rs lines 14-31: builds the builder (a seed-bytes
length failure has already panicked inside build_builder), then matches the
engine construction, converting its error to text. -/
def build_node (config : Config) (chain : Option ChainDataSourceConfig)
    (entropy : Option EntropySourceConfig) (gossip : Option GossipSourceConfig) :
    BuildOutcome :=
  match build_builder config chain entropy gossip with
  | PanicOr.panicked m => BuildOutcome.panicked m
  | PanicOr.ok b =>
      match b.buildEngine with
      | Except.ok n => BuildOutcome.ok n
      | Except.error e => BuildOutcome.err e

/- ===================== Domain Translator round-trip model ===================== -/

/-- Translation failure at the domain boundary (spec section 7 class 5). -/
inductive TranslationError where
  | parseError
  | invalidLength
deriving DecidableEq

/-- Modelled from the spec: a character admissible in the canonical text
encoding of a string-backed identifier (the parser lives in external crates
behind types.rs, not under src/). -/
def validAddrChar (c : Char) : Bool := c.isAlphanum

/-- Modelled from the spec: validity of an identifier text: nonempty and made
of admissible characters only. -/
def validAddrText (t : String) : Bool :=
  !t.data.isEmpty && t.data.all validAddrChar

/-- An engine-native string-backed identifier: its canonical text together
with the evidence that the text is valid. -/
structure NativeAddress where
  text : String
  validText : validAddrText text = true

/-- Modelled from the spec: translate_from_wire for string-backed identifiers
(types.rs not under src/): parses the canonical text, rejecting malformed text
with a parse error and never producing a partially populated value. -/
def addressFromWire (t : String) : Except TranslationError NativeAddress :=
  if h : validAddrText t = true then Except.ok { text := t, validText := h }
  else Except.error TranslationError.parseError

/-- Modelled from the spec: translate_to_wire for string-backed identifiers:
the canonical text encoding. -/
def addressToWire (a : NativeAddress) : String := a.text

/-- An engine-native fixed-length byte identifier (payment hash, preimage,
secret). -/
structure NativeHash where
  bytes : List Nat
deriving DecidableEq

/-- Modelled from the spec: translate_from_wire for 32-byte identifiers
(types.rs not under src/): rejects any length other than 32 with
InvalidLength, never truncating or padding. -/
def hashFromWire (bs : List Nat) : Except TranslationError NativeHash :=
  if bs.length = 32 then Except.ok { bytes := bs }
  else Except.error TranslationError.invalidLength

/-- Modelled from the spec: translate_to_wire for 32-byte identifiers: the
bytes themselves. -/
def hashToWire (nh : NativeHash) : List Nat := nh.bytes

/- ===================== Generated bridge marshaling (bridge_generated.rs) ===================== -/

/-- Network enum (crate::types::Network), as marshaled by bridge_generated.rs. -/
inductive Network where
  | bitcoin
  | testnet
  | signet
  | regtest
deriving DecidableEq

/-- Wire2Api of Network for i32, from bridge_generated.rs lines 524-534: known
tags map in declaration order; any other tag is unreachable, modelled as none
(the conversion aborts instead of coercing). -/
def wire2apiNetwork (i : Int) : Option Network :=
  match i with
  | 0 => some Network.bitcoin
  | 1 => some Network.testnet
  | 2 => some Network.signet
  | 3 => some Network.regtest
  | _ => none

/-- IntoDart for PaymentStatus, from bridge_generated.rs lines 661-670. -/
def paymentStatusIntoDart : PaymentStatus → Int
  | PaymentStatus.pending => 0
  | PaymentStatus.succeeded => 1
  | PaymentStatus.failed => 2

/- ===================== Concrete sample states ===================== -/

/-- A concrete engine state in the Built phase (started has not succeeded). -/
def sampleEngineBuilt : EngineState :=
  { phase := Phase.built
    queue := [5, 7]
    nodeIdText := "02aa"
    listenAddrText := none
    freshAddrText := "bc1q"
    spendableSats := 1
    totalSats := 2
    txidText := "tx0"
    tempIdText := "tmp0"
    channels := [{ channelIdText := "ch0", isReady := true }]
    payments := [{ hash := [1], direction := EngineDirection.inbound,
                   amountMsat := some 10, status := EngineStatus.pending }]
    peers := [{ nodeIdText := "02bb", isConnected := true }]
    invoiceText := "lnbc1"
    phBytes := [9]
    signedText := "sig0"
    verifyOk := true
    opFails := false
    errText := "boom"
    lastOpenArgs := none }

/-- A handle whose engine is Built and whose mutex is healthy. -/
def builtState : NodeState := { poisoned := false, engine := sampleEngineBuilt }

/-- A handle whose engine is Running and whose mutex is healthy. -/
def runningState : NodeState :=
  { poisoned := false, engine := { sampleEngineBuilt with phase := Phase.running } }

/-- A handle whose mutex has been poisoned by a panic in a previous holder. -/
def poisonedState : NodeState := { poisoned := true, engine := sampleEngineBuilt }

/-- A running handle whose engine reports an operation failure. -/
def failingRunningState : NodeState :=
  { poisoned := false
    engine := { sampleEngineBuilt with phase := Phase.running, opFails := true } }

/-- A concrete base configuration for build scenarios. -/
def sampleConfig : Config :=
  { storageDirPath := "dir", engineBuildFails := false, engineBuildErrText := "BuildError" }

/-- A concrete valid engine-native identifier. -/
def addrSample : NativeAddress :=
  { text := "bc1q", validText := by decide }

/- ===================== Theorems ===================== -/

/-- Claim C2, counterexample: in the trace of wait_until_next_event, the
blocking engine call is step 1 and the handle mutex IS held when it starts,
so the claim that the lock is not held during the pending wait is false on
the code. -/
theorem c2_counterexample :
    waitUntilNextEventSteps.get? 1 = some (LockStep.engineCall true)
    ∧ lockHeldBefore waitUntilNextEventSteps 1 = true := by
  decide

/-- Claim C2, amended: every blocking engine call in the trace of
wait_until_next_event runs while the handle mutex is held, so other
NodePointer operations cannot acquire the lock until the wait returns. -/
theorem c2_amended (i : Nat)
    (h : waitUntilNextEventSteps.get? i = some (LockStep.engineCall true)) :
    lockHeldBefore waitUntilNextEventSteps i = true := by
  match i with
  | 0 => exact absurd h (by decide)
  | 1 => decide
  | 2 => exact absurd h (by decide)
  | n + 3 => simp [waitUntilNextEventSteps, List.get?] at h

/-- Claim C2, witness for the amended theorem at the concrete step index 1. -/
theorem c2_amended_witness :
    lockHeldBefore waitUntilNextEventSteps 1 = true :=
  c2_amended 1 (by decide)

/-- Claim C4, counterexample: building with a 31-byte SeedBytes payload makes
build_node panic with the InvalidSeedBytes message (the expect call in
build_builder); the outcome is not a returned error value, so the claim that
the InvalidSeedBytes error is returned to the caller is false on the code. -/
theorem c4_counterexample :
    build_node sampleConfig none
        (some (EntropySourceConfig.seedBytes (List.replicate 31 0))) none
      = BuildOutcome.panicked "InvalidSeedBytes"
    ∧ (build_node sampleConfig none
        (some (EntropySourceConfig.seedBytes (List.replicate 31 0))) none).isErrReturn
      = false := by
  constructor
  · rfl
  · rfl

/-- Claim C4, amended: for every SeedBytes payload whose length is not exactly
32, build_node aborts with a panic carrying the InvalidSeedBytes message (no
truncation or padding), and no engine is constructed; the failure is a panic,
not an error value returned by build_node. -/
theorem c4_amended (bytes : List Nat) (cfg : Config)
    (chain : Option ChainDataSourceConfig) (gossip : Option GossipSourceConfig)
    (h : bytes.length ≠ 32) :
    build_node cfg chain (some (EntropySourceConfig.seedBytes bytes)) gossip
      = BuildOutcome.panicked "InvalidSeedBytes"
    ∧ (build_node cfg chain (some (EntropySourceConfig.seedBytes bytes)) gossip).isBuilt
      = false := by
  have hb : build_builder cfg chain (some (EntropySourceConfig.seedBytes bytes)) gossip
      = PanicOr.panicked "InvalidSeedBytes" := by
    simp [build_builder, applyEntropy, encodeSeed, BuilderModel.setEntropySeedBytes,
      expectOr, h]
  constructor
  · simp [build_node, hb]
  · simp [build_node, hb, BuildOutcome.isBuilt]

/-- Claim C4, witness for the amended theorem at a concrete 31-byte payload. -/
theorem c4_amended_witness :
    build_node sampleConfig none
        (some (EntropySourceConfig.seedBytes (List.replicate 31 0))) none
      = BuildOutcome.panicked "InvalidSeedBytes" :=
  (c4_amended (List.replicate 31 0) sampleConfig none none (by decide)).1

/-- Claim C8: the bridge enum marshaling is the exhaustive order-preserving tag
correspondence Pending to 0, Succeeded to 1, Failed to 2 for PaymentStatus and
0 to Bitcoin, 1 to Testnet, 2 to Signet, 3 to Regtest for Network, and every
integer tag outside the known set aborts (none) instead of coercing. -/
theorem c8_enum_tags :
    wire2apiNetwork 0 = some Network.bitcoin
    ∧ wire2apiNetwork 1 = some Network.testnet
    ∧ wire2apiNetwork 2 = some Network.signet
    ∧ wire2apiNetwork 3 = some Network.regtest
    ∧ paymentStatusIntoDart PaymentStatus.pending = 0
    ∧ paymentStatusIntoDart PaymentStatus.succeeded = 1
    ∧ paymentStatusIntoDart PaymentStatus.failed = 2
    ∧ (∀ i : Int, i ≠ 0 → i ≠ 1 → i ≠ 2 → i ≠ 3 → wire2apiNetwork i = none) := by
  refine ⟨rfl, rfl, rfl, rfl, rfl, rfl, rfl, ?_⟩
  intro i h0 h1 h2 h3
  unfold wire2apiNetwork
  split
  · exact absurd rfl h0
  · exact absurd rfl h1
  · exact absurd rfl h2
  · exact absurd rfl h3
  · rfl

/-- Claim C8, witness: the unmapped tag 7 aborts, the known tag 0 maps to
Bitcoin. -/
theorem c8_enum_tags_witness :
    wire2apiNetwork 7 = none ∧ wire2apiNetwork 0 = some Network.bitcoin :=
  ⟨c8_enum_tags.2.2.2.2.2.2.2 7 (by decide) (by decide) (by decide) (by decide),
   c8_enum_tags.1⟩

/-- Claim C6: for string-backed identifiers, translating a valid wire text
into the engine-native form and back yields the original text, and malformed
text is rejected with a parse error; for 32-byte identifiers, valid bytes
round-trip unchanged and any other length is rejected with InvalidLength; no
partially populated value is ever produced. -/
theorem c6_roundtrip :
    (∀ t a, addressFromWire t = Except.ok a → addressToWire a = t)
    ∧ (∀ t, validAddrText t = false →
        addressFromWire t = Except.error TranslationError.parseError)
    ∧ (∀ bs nh, hashFromWire bs = Except.ok nh → hashToWire nh = bs)
    ∧ (∀ bs, bs.length ≠ 32 →
        hashFromWire bs = Except.error TranslationError.invalidLength) := by
  refine ⟨?_, ?_, ?_, ?_⟩
  · intro t a h
    unfold addressFromWire at h
    split at h
    · cases h
      rfl
    · cases h
  · intro t hv
    simp [addressFromWire, hv]
  · intro bs nh h
    unfold hashFromWire at h
    split at h
    · cases h
      rfl
    · cases h
  · intro bs h
    simp [hashFromWire, h]

/-- Claim C6, witness: concrete round trips and rejections for both identifier
kinds. -/
theorem c6_roundtrip_witness :
    addressToWire addrSample = "bc1q"
    ∧ addressFromWire "b c" = Except.error TranslationError.parseError
    ∧ hashToWire { bytes := List.replicate 32 0 } = List.replicate 32 0
    ∧ hashFromWire (List.replicate 31 0) = Except.error TranslationError.invalidLength :=
  ⟨c6_roundtrip.1 "bc1q" addrSample rfl,
   c6_roundtrip.2.1 "b c" (by decide),
   c6_roundtrip.2.2.1 (List.replicate 32 0) { bytes := List.replicate 32 0 } rfl,
   c6_roundtrip.2.2.2 (List.replicate 31 0) (by decide)⟩

/-- Claim C1, counterexample: on the Built handle (start has not succeeded),
node_id, one of the operations the claim lists, returns a success value
(Ok with the engine public key) and not a NotRunning-class error, so the
claim is false on the code: the facade node_id has no error branch at all. -/
theorem c1_counterexample :
    builtState.engine.phase ≠ Phase.running
    ∧ (NodePointer.node_id builtState).1 = Outcome.ok { internal := "02aa" }
    ∧ (NodePointer.node_id builtState).1.isErr = false := by
  refine ⟨by decide, rfl, rfl⟩

/-- Claim C1, amended: while the handle is not Running, every listed operation
whose facade body has an error branch (new_onchain_address, the balance
queries, the on-chain and lightning send/receive operations, connect,
disconnect, connect_open_channel, sync_wallets, close_channel,
update_channel_config, remove_payment, sign_message) returns the engine
NotRunning error; but the listed operations whose facade body has no error
branch (node_id, listening_address, list_channels, list_payments, list_peers,
next_event, payment, verify_signature) return their success value regardless
of the lifecycle state. -/
theorem c1_amended (s : NodeState) (inv : Invoice) (amt : Nat) (nid : PublicKey)
    (d : String) (ex : Nat) (adr : Address) (ph : PaymentHash) (m : List Nat)
    (adr2 : NetAddress) (persist : Bool) (cid : ChannelId) (ccfg : ChannelConfig)
    (push : Option Nat) (ann : Bool) (ocfg : Option ChannelConfig) (sg : String)
    (h1 : s.poisoned = false) (h2 : s.engine.phase ≠ Phase.running) :
    (NodePointer.new_onchain_address s).1 = Outcome.err "NotRunning"
    ∧ (NodePointer.spendable_onchain_balance_sats s).1 = Outcome.err "NotRunning"
    ∧ (NodePointer.total_onchain_balance_sats s).1 = Outcome.err "NotRunning"
    ∧ (NodePointer.send_to_onchain_address s adr amt).1 = Outcome.err "NotRunning"
    ∧ (NodePointer.send_all_to_onchain_address s adr).1 = Outcome.err "NotRunning"
    ∧ (NodePointer.connect s nid adr2 persist).1 = Outcome.err "NotRunning"
    ∧ (NodePointer.disconnect s nid).1 = Outcome.err "NotRunning"
    ∧ (NodePointer.connect_open_channel s adr2 nid amt push ann ocfg).1
        = Outcome.err "NotRunning"
    ∧ (NodePointer.sync_wallets s).1 = Outcome.err "NotRunning"
    ∧ (NodePointer.close_channel s cid nid).1 = Outcome.err "NotRunning"
    ∧ (NodePointer.update_channel_config s cid nid ccfg).1 = Outcome.err "NotRunning"
    ∧ (NodePointer.send_payment s inv).1 = Outcome.err "NotRunning"
    ∧ (NodePointer.send_payment_using_amount s inv amt).1 = Outcome.err "NotRunning"
    ∧ (NodePointer.send_spontaneous_payment s amt nid).1 = Outcome.err "NotRunning"
    ∧ (NodePointer.receive_payment s amt d ex).1 = Outcome.err "NotRunning"
    ∧ (NodePointer.receive_variable_amount_payment s d ex).1 = Outcome.err "NotRunning"
    ∧ (NodePointer.remove_payment s ph).1 = Outcome.err "NotRunning"
    ∧ (NodePointer.sign_message s m).1 = Outcome.err "NotRunning"
    ∧ (NodePointer.node_id s).1 = Outcome.ok { internal := s.engine.nodeIdText }
    ∧ (NodePointer.listening_address s).1
        = Outcome.ok ((Engine.listeningAddress s.engine).map
            (fun t => ({ internal := t } : NetAddress)))
    ∧ (NodePointer.list_channels s).1
        = Outcome.ok (s.engine.channels.map channelFromEngine)
    ∧ (NodePointer.list_payments s).1
        = Outcome.ok (s.engine.payments.map paymentFromEngine)
    ∧ (NodePointer.list_peers s).1 = Outcome.ok (s.engine.peers.map peerFromEngine)
    ∧ (NodePointer.next_event s).1
        = Outcome.ok (s.engine.queue.head?.map eventFromEngine)
    ∧ (NodePointer.payment s ph).1
        = Outcome.ok ((Engine.payment s.engine ph.internal).map paymentFromEngine)
    ∧ (NodePointer.verify_signature s m sg nid).1
        = Outcome.ok (Engine.verifySignature s.engine m sg (publicKeyToEngine nid)) := by
  have hf : s.engine.failing = some "NotRunning" := by
    simp [EngineState.failing, h2]
  refine ⟨?_, ?_, ?_, ?_, ?_, ?_, ?_, ?_, ?_, ?_, ?_, ?_, ?_, ?_, ?_, ?_, ?_, ?_,
    ?_, ?_, ?_, ?_, ?_, ?_, ?_, ?_⟩
  all_goals
    simp [NodePointer.new_onchain_address, NodePointer.spendable_onchain_balance_sats,
      NodePointer.total_onchain_balance_sats, NodePointer.send_to_onchain_address,
      NodePointer.send_all_to_onchain_address, NodePointer.connect,
      NodePointer.disconnect, NodePointer.connect_open_channel,
      NodePointer.sync_wallets, NodePointer.close_channel,
      NodePointer.update_channel_config, NodePointer.send_payment,
      NodePointer.send_payment_using_amount, NodePointer.send_spontaneous_payment,
      NodePointer.receive_payment, NodePointer.receive_variable_amount_payment,
      NodePointer.remove_payment, NodePointer.sign_message, NodePointer.node_id,
      NodePointer.listening_address, NodePointer.list_channels,
      NodePointer.list_payments, NodePointer.list_peers,
      NodePointer.next_event, NodePointer.payment, NodePointer.verify_signature,
      lockUnwrap, h1, hf,
      Engine.newOnchainAddress, Engine.spendableOnchainBalanceSats,
      Engine.totalOnchainBalanceSats, Engine.sendToOnchainAddress,
      Engine.sendAllToOnchainAddress, Engine.connect, Engine.disconnect,
      Engine.connectOpenChannel, Engine.syncWallets, Engine.closeChannel,
      Engine.updateChannelConfig, Engine.sendPayment,
      Engine.sendPaymentUsingAmount, Engine.sendSpontaneousPayment,
      Engine.receivePayment, Engine.receiveVariableAmountPayment,
      Engine.removePayment, Engine.signMessage, Engine.nodeId,
      Engine.listChannels, Engine.listPayments, Engine.listPeers,
      Engine.nextEvent]

/-- Claim C1, witness for the amended theorem on the concrete Built handle:
send_payment and connect yield NotRunning while node_id and verify_signature
still return their success values. -/
theorem c1_amended_witness :
    (NodePointer.send_payment builtState { internal := "lnbc1" }).1
      = Outcome.err "NotRunning"
    ∧ (NodePointer.node_id builtState).1 = Outcome.ok { internal := "02aa" }
    ∧ (NodePointer.connect builtState { internal := "02bb" }
        { internal := "addr1" } true).1 = Outcome.err "NotRunning"
    ∧ (NodePointer.verify_signature builtState [0] "s0"
        { internal := "02bb" }).1 = Outcome.ok true := by
  obtain ⟨g1, g2, g3, g4, g5, g6, g7, g8, g9, g10, g11, g12, g13, g14, g15, g16,
    g17, g18, g19, g20, g21, g22, g23, g24, g25, g26⟩ :=
    c1_amended builtState { internal := "lnbc1" } 1 { internal := "02bb" } "d" 1
      { internal := "bc1q" } { internal := [1] } [0] { internal := "addr1" } true
      { internal := "ch0" } { forwardingFeeBaseMsat := 3 } (some 5) true
      (some { forwardingFeeBaseMsat := 3 }) "s0" rfl (by decide)
  exact ⟨g12, g19, g6, g26⟩

/-- Helper: on a healthy (unpoisoned) handle, next_event returns the head of
the queue and leaves the whole state unchanged. -/
theorem next_event_healthy (es : EngineState) :
    NodePointer.next_event { poisoned := false, engine := es }
      = (Outcome.ok (es.queue.head?.map eventFromEngine),
         { poisoned := false, engine := es }) := rfl

/-- Claim C3: on every reachable handle state, N next_event calls with no
intervening event_handled all return the identical head event and leave the
queue untouched; the blocking wait returns that same head; and after one
event_handled, the next call returns either none or an event different from
the acknowledged one (event identities are distinct in the engine queue, which
holds at most one unacknowledged head at a time). -/
theorem c3_event_idempotence (s : NodeState) (n : Nat) (h : s.poisoned = false) :
    ((iterNextEvent n s).1
        = List.replicate n (Outcome.ok (s.engine.queue.head?.map eventFromEngine))
      ∧ (iterNextEvent n s).2 = s)
    ∧ (∀ e, s.engine.queue.head? = some e →
        NodePointer.wait_until_next_event s = (Outcome.ok (eventFromEngine e), s))
    ∧ (s.engine.queue.Nodup → ∀ e0, s.engine.queue.head? = some e0 →
        ((NodePointer.next_event (NodePointer.event_handled s).2).1 = Outcome.ok none
         ∨ ∃ e1, (NodePointer.next_event (NodePointer.event_handled s).2).1
              = Outcome.ok (some e1) ∧ e1 ≠ e0)) := by
  obtain ⟨p, es⟩ := s
  cases p with
  | true => simp at h
  | false =>
    refine ⟨?_, ?_, ?_⟩
    · induction n with
      | zero => simp [iterNextEvent]
      | succ k ih =>
          obtain ⟨ih1, ih2⟩ := ih
          constructor
          · simp [iterNextEvent, next_event_healthy es, ih1, List.replicate_succ]
          · simp [iterNextEvent, next_event_healthy es, ih2]
    · intro e he
      have he2 : es.queue.head? = some e := he
      simp [NodePointer.wait_until_next_event, lockUnwrap, Engine.nextEvent, he2]
    · intro hnd e0 he0
      have hnd2 : es.queue.Nodup := hnd
      have he02 : es.queue.head? = some e0 := he0
      have hstep : (NodePointer.event_handled { poisoned := false, engine := es }).2
          = ({ poisoned := false, engine := { es with queue := es.queue.tail } } : NodeState) :=
        rfl
      rw [hstep, next_event_healthy]
      cases hq : es.queue with
      | nil => rw [hq] at he02; cases he02
      | cons a t =>
          have ha : a = e0 := by
            rw [hq] at he02
            simpa using he02
          rw [hq] at hnd2
          have hat : a ∉ t := (List.nodup_cons.mp hnd2).1
          cases ht : t.head? with
          | none => left; simp [hq, ht]
          | some e1 =>
              right
              refine ⟨e1, by simp [hq, ht, eventFromEngine], ?_⟩
              have he1t : e1 ∈ t := by
                cases t with
                | nil => cases ht
                | cons b t2 =>
                    have hb : b = e1 := by simpa using ht
                    rw [← hb]
                    exact List.mem_cons_self b t2
              intro hcon
              apply hat
              rw [ha, ← hcon]
              exact he1t

/-- Claim C3, witness on the concrete running handle with queue 5, 7: two
next_event calls both return event 5, and after event_handled the next call
returns 7, a different event. -/
theorem c3_witness :
    (iterNextEvent 2 runningState).1 = List.replicate 2 (Outcome.ok (some 5))
    ∧ ((NodePointer.next_event (NodePointer.event_handled runningState).2).1
          = Outcome.ok none
       ∨ ∃ e1, (NodePointer.next_event (NodePointer.event_handled runningState).2).1
            = Outcome.ok (some e1) ∧ e1 ≠ 5) :=
  ⟨(c3_event_idempotence runningState 2 rfl).1.1,
   (c3_event_idempotence runningState 2 rfl).2.2 (by decide) 5 rfl⟩

/-- Claim C5: for every fallible NodePointer operation and every engine
outcome (the modelled engine reports an error exactly when EngineState.failing
is some e, and succeeds exactly when it is none, so the two branches below are
exhaustive over engine outcomes): an engine error is returned as an error
value carrying exactly the engine error text with the handle state unchanged
(an error return, never a panic), and an engine success is returned as the
translated success value; the cited build_node error path likewise converts
the engine construction error to its text. The lifecycle operations start and
stop are covered through the phases of their modelled engine calls. -/
theorem c5_engine_error_propagation (s : NodeState) (inv : Invoice) (amt : Nat)
    (nid : PublicKey) (d : String) (ex : Nat) (adr : Address) (ph : PaymentHash)
    (m : List Nat) (adr2 : NetAddress) (persist : Bool) (cid : ChannelId)
    (ccfg : ChannelConfig) (push : Option Nat) (ann : Bool)
    (ocfg : Option ChannelConfig) (cfg : Config) (chain : Option ChainDataSourceConfig)
    (entropy : Option EntropySourceConfig) (gossip : Option GossipSourceConfig)
    (h1 : s.poisoned = false) :
    (∀ e, s.engine.failing = some e →
        NodePointer.send_payment s inv = (Outcome.err e, s))
    ∧ (s.engine.failing = none →
        NodePointer.send_payment s inv
          = (Outcome.ok { internal := s.engine.phBytes }, s))
    ∧ (∀ e, s.engine.failing = some e →
        NodePointer.send_payment_using_amount s inv amt = (Outcome.err e, s))
    ∧ (s.engine.failing = none →
        NodePointer.send_payment_using_amount s inv amt
          = (Outcome.ok { internal := s.engine.phBytes }, s))
    ∧ (∀ e, s.engine.failing = some e →
        NodePointer.send_spontaneous_payment s amt nid = (Outcome.err e, s))
    ∧ (s.engine.failing = none →
        NodePointer.send_spontaneous_payment s amt nid
          = (Outcome.ok { internal := s.engine.phBytes }, s))
    ∧ (∀ e, s.engine.failing = some e →
        NodePointer.receive_payment s amt d ex = (Outcome.err e, s))
    ∧ (s.engine.failing = none →
        NodePointer.receive_payment s amt d ex
          = (Outcome.ok { internal := s.engine.invoiceText }, s))
    ∧ (∀ e, s.engine.failing = some e →
        NodePointer.receive_variable_amount_payment s d ex = (Outcome.err e, s))
    ∧ (s.engine.failing = none →
        NodePointer.receive_variable_amount_payment s d ex
          = (Outcome.ok { internal := s.engine.invoiceText }, s))
    ∧ (∀ e, s.engine.failing = some e →
        NodePointer.new_onchain_address s = (Outcome.err e, s))
    ∧ (s.engine.failing = none →
        NodePointer.new_onchain_address s
          = (Outcome.ok { internal := s.engine.freshAddrText }, s))
    ∧ (∀ e, s.engine.failing = some e →
        NodePointer.spendable_onchain_balance_sats s = (Outcome.err e, s))
    ∧ (s.engine.failing = none →
        NodePointer.spendable_onchain_balance_sats s
          = (Outcome.ok s.engine.spendableSats, s))
    ∧ (∀ e, s.engine.failing = some e →
        NodePointer.total_onchain_balance_sats s = (Outcome.err e, s))
    ∧ (s.engine.failing = none →
        NodePointer.total_onchain_balance_sats s
          = (Outcome.ok s.engine.totalSats, s))
    ∧ (∀ e, s.engine.failing = some e →
        NodePointer.send_to_onchain_address s adr amt = (Outcome.err e, s))
    ∧ (s.engine.failing = none →
        NodePointer.send_to_onchain_address s adr amt
          = (Outcome.ok { internal := s.engine.txidText }, s))
    ∧ (∀ e, s.engine.failing = some e →
        NodePointer.send_all_to_onchain_address s adr = (Outcome.err e, s))
    ∧ (s.engine.failing = none →
        NodePointer.send_all_to_onchain_address s adr
          = (Outcome.ok { internal := s.engine.txidText }, s))
    ∧ (∀ e, s.engine.failing = some e →
        NodePointer.connect s nid adr2 persist = (Outcome.err e, s))
    ∧ (s.engine.failing = none →
        NodePointer.connect s nid adr2 persist = (Outcome.ok (), s))
    ∧ (∀ e, s.engine.failing = some e →
        NodePointer.disconnect s nid = (Outcome.err e, s))
    ∧ (s.engine.failing = none →
        NodePointer.disconnect s nid = (Outcome.ok (), s))
    ∧ (∀ e, s.engine.failing = some e →
        NodePointer.connect_open_channel s adr2 nid amt push ann ocfg
          = (Outcome.err e, s))
    ∧ (s.engine.failing = none →
        NodePointer.connect_open_channel s adr2 nid amt push ann ocfg
          = (Outcome.ok (),
             { s with engine := { s.engine with
                 lastOpenArgs := some (EngineOpenChannelArgs.mk
                   (publicKeyToEngine nid) (netAddressToEngine adr2) amt push
                   (ocfg.map channelConfigToEngine) ann) } }))
    ∧ (∀ e, s.engine.failing = some e →
        NodePointer.sync_wallets s = (Outcome.err e, s))
    ∧ (s.engine.failing = none → NodePointer.sync_wallets s = (Outcome.ok (), s))
    ∧ (∀ e, s.engine.failing = some e →
        NodePointer.close_channel s cid nid = (Outcome.err e, s))
    ∧ (s.engine.failing = none →
        NodePointer.close_channel s cid nid = (Outcome.ok (), s))
    ∧ (∀ e, s.engine.failing = some e →
        NodePointer.update_channel_config s cid nid ccfg = (Outcome.err e, s))
    ∧ (s.engine.failing = none →
        NodePointer.update_channel_config s cid nid ccfg = (Outcome.ok (), s))
    ∧ (∀ e, s.engine.failing = some e →
        NodePointer.remove_payment s ph = (Outcome.err e, s))
    ∧ (s.engine.failing = none →
        NodePointer.remove_payment s ph
          = (Outcome.ok (s.engine.payments.any (fun p0 => p0.hash == ph.internal)),
             { s with engine := { s.engine with
                 payments := s.engine.payments.filter
                   (fun p0 => !(p0.hash == ph.internal)) } }))
    ∧ (∀ e, s.engine.failing = some e →
        NodePointer.sign_message s m = (Outcome.err e, s))
    ∧ (s.engine.failing = none →
        NodePointer.sign_message s m = (Outcome.ok s.engine.signedText, s))
    ∧ (s.engine.phase = Phase.built → s.engine.opFails = false →
        NodePointer.start s
          = (Outcome.ok (), { s with engine := { s.engine with phase := Phase.running } }))
    ∧ (s.engine.phase = Phase.built → s.engine.opFails = true →
        NodePointer.start s = (Outcome.err s.engine.errText, s))
    ∧ (s.engine.phase = Phase.running →
        NodePointer.start s = (Outcome.err "AlreadyStarted", s))
    ∧ (s.engine.phase = Phase.stopped →
        NodePointer.start s = (Outcome.err "StartError", s))
    ∧ (s.engine.phase = Phase.running → s.engine.opFails = false →
        NodePointer.stop s
          = (Outcome.ok (), { s with engine := { s.engine with phase := Phase.stopped } }))
    ∧ (s.engine.phase = Phase.running → s.engine.opFails = true →
        NodePointer.stop s = (Outcome.err s.engine.errText, s))
    ∧ (s.engine.phase ≠ Phase.running →
        NodePointer.stop s = (Outcome.err "NotRunning", s))
    ∧ (∀ b n, build_builder cfg chain entropy gossip = PanicOr.ok b →
        b.buildEngine = Except.ok n →
        build_node cfg chain entropy gossip = BuildOutcome.ok n)
    ∧ (∀ b e, build_builder cfg chain entropy gossip = PanicOr.ok b →
        b.buildEngine = Except.error e →
        build_node cfg chain entropy gossip = BuildOutcome.err e) := by
  obtain ⟨p, es⟩ := s
  cases p with
  | true => simp at h1
  | false =>
    refine ⟨?_, ?_, ?_, ?_, ?_, ?_, ?_, ?_, ?_, ?_, ?_, ?_, ?_, ?_, ?_, ?_, ?_, ?_,
      ?_, ?_, ?_, ?_, ?_, ?_, ?_, ?_, ?_, ?_, ?_, ?_, ?_, ?_, ?_, ?_, ?_, ?_, ?_,
      ?_, ?_, ?_, ?_, ?_, ?_, ?_, ?_⟩
    · intro e0 hfs
      simp [NodePointer.send_payment, Engine.sendPayment, lockUnwrap, hfs]
    · intro hfs
      simp [NodePointer.send_payment, Engine.sendPayment, lockUnwrap, hfs]
    · intro e0 hfs
      simp [NodePointer.send_payment_using_amount, Engine.sendPaymentUsingAmount,
        lockUnwrap, hfs]
    · intro hfs
      simp [NodePointer.send_payment_using_amount, Engine.sendPaymentUsingAmount,
        lockUnwrap, hfs]
    · intro e0 hfs
      simp [NodePointer.send_spontaneous_payment, Engine.sendSpontaneousPayment,
        lockUnwrap, hfs]
    · intro hfs
      simp [NodePointer.send_spontaneous_payment, Engine.sendSpontaneousPayment,
        lockUnwrap, hfs]
    · intro e0 hfs
      simp [NodePointer.receive_payment, Engine.receivePayment, lockUnwrap, hfs]
    · intro hfs
      simp [NodePointer.receive_payment, Engine.receivePayment, lockUnwrap, hfs]
    · intro e0 hfs
      simp [NodePointer.receive_variable_amount_payment,
        Engine.receiveVariableAmountPayment, lockUnwrap, hfs]
    · intro hfs
      simp [NodePointer.receive_variable_amount_payment,
        Engine.receiveVariableAmountPayment, lockUnwrap, hfs]
    · intro e0 hfs
      simp [NodePointer.new_onchain_address, Engine.newOnchainAddress, lockUnwrap, hfs]
    · intro hfs
      simp [NodePointer.new_onchain_address, Engine.newOnchainAddress, lockUnwrap, hfs]
    · intro e0 hfs
      simp [NodePointer.spendable_onchain_balance_sats,
        Engine.spendableOnchainBalanceSats, lockUnwrap, hfs]
    · intro hfs
      simp [NodePointer.spendable_onchain_balance_sats,
        Engine.spendableOnchainBalanceSats, lockUnwrap, hfs]
    · intro e0 hfs
      simp [NodePointer.total_onchain_balance_sats, Engine.totalOnchainBalanceSats,
        lockUnwrap, hfs]
    · intro hfs
      simp [NodePointer.total_onchain_balance_sats, Engine.totalOnchainBalanceSats,
        lockUnwrap, hfs]
    · intro e0 hfs
      simp [NodePointer.send_to_onchain_address, Engine.sendToOnchainAddress,
        lockUnwrap, hfs]
    · intro hfs
      simp [NodePointer.send_to_onchain_address, Engine.sendToOnchainAddress,
        lockUnwrap, hfs]
    · intro e0 hfs
      simp [NodePointer.send_all_to_onchain_address, Engine.sendAllToOnchainAddress,
        lockUnwrap, hfs]
    · intro hfs
      simp [NodePointer.send_all_to_onchain_address, Engine.sendAllToOnchainAddress,
        lockUnwrap, hfs]
    · intro e0 hfs
      simp [NodePointer.connect, Engine.connect, lockUnwrap, hfs]
    · intro hfs
      simp [NodePointer.connect, Engine.connect, lockUnwrap, hfs]
    · intro e0 hfs
      simp [NodePointer.disconnect, Engine.disconnect, lockUnwrap, hfs]
    · intro hfs
      simp [NodePointer.disconnect, Engine.disconnect, lockUnwrap, hfs]
    · intro e0 hfs
      simp [NodePointer.connect_open_channel, Engine.connectOpenChannel,
        lockUnwrap, hfs]
    · intro hfs
      simp [NodePointer.connect_open_channel, Engine.connectOpenChannel,
        lockUnwrap, hfs]
    · intro e0 hfs
      simp [NodePointer.sync_wallets, Engine.syncWallets, lockUnwrap, hfs]
    · intro hfs
      simp [NodePointer.sync_wallets, Engine.syncWallets, lockUnwrap, hfs]
    · intro e0 hfs
      simp [NodePointer.close_channel, Engine.closeChannel, lockUnwrap, hfs]
    · intro hfs
      simp [NodePointer.close_channel, Engine.closeChannel, lockUnwrap, hfs]
    · intro e0 hfs
      simp [NodePointer.update_channel_config, Engine.updateChannelConfig,
        lockUnwrap, hfs]
    · intro hfs
      simp [NodePointer.update_channel_config, Engine.updateChannelConfig,
        lockUnwrap, hfs]
    · intro e0 hfs
      simp [NodePointer.remove_payment, Engine.removePayment, lockUnwrap, hfs]
    · intro hfs
      simp [NodePointer.remove_payment, Engine.removePayment, lockUnwrap, hfs]
    · intro e0 hfs
      simp [NodePointer.sign_message, Engine.signMessage, lockUnwrap, hfs]
    · intro hfs
      simp [NodePointer.sign_message, Engine.signMessage, lockUnwrap, hfs]
    · intro hp hof
      have hp2 : es.phase = Phase.built := hp
      have hof2 : es.opFails = false := hof
      simp [NodePointer.start, Engine.start, lockUnwrap, hp2, hof2]
    · intro hp hof
      have hp2 : es.phase = Phase.built := hp
      have hof2 : es.opFails = true := hof
      simp [NodePointer.start, Engine.start, lockUnwrap, hp2, hof2]
    · intro hp
      have hp2 : es.phase = Phase.running := hp
      simp [NodePointer.start, Engine.start, lockUnwrap, hp2]
    · intro hp
      have hp2 : es.phase = Phase.stopped := hp
      simp [NodePointer.start, Engine.start, lockUnwrap, hp2]
    · intro hp hof
      have hp2 : es.phase = Phase.running := hp
      have hof2 : es.opFails = false := hof
      simp [NodePointer.stop, Engine.stop, lockUnwrap, hp2, hof2]
    · intro hp hof
      have hp2 : es.phase = Phase.running := hp
      have hof2 : es.opFails = true := hof
      simp [NodePointer.stop, Engine.stop, lockUnwrap, hp2, hof2]
    · intro hp
      have hp2 : ¬ es.phase = Phase.running := hp
      simp [NodePointer.stop, Engine.stop, lockUnwrap, hp2]
    · intro b0 n0 hb hn
      simp [build_node, hb, hn]
    · intro b0 e0 hb hn
      simp [build_node, hb, hn]

/-- Claim C5, witness: on the concrete failing running handle the engine error
text boom is returned as the error value with the state unchanged, and on the
healthy running handle the translated success value is returned. -/
theorem c5_witness :
    NodePointer.send_payment failingRunningState { internal := "lnbc1" }
      = (Outcome.err "boom", failingRunningState)
    ∧ NodePointer.send_payment runningState { internal := "lnbc1" }
      = (Outcome.ok { internal := [9] }, runningState) :=
  ⟨(c5_engine_error_propagation failingRunningState { internal := "lnbc1" } 1
      { internal := "02bb" } "d" 1 { internal := "bc1q" } { internal := [1] } [0]
      { internal := "addr1" } true { internal := "ch0" }
      { forwardingFeeBaseMsat := 3 } (some 5) true (some { forwardingFeeBaseMsat := 3 })
      sampleConfig none none none rfl).1 "boom" rfl,
   (c5_engine_error_propagation runningState { internal := "lnbc1" } 1
      { internal := "02bb" } "d" 1 { internal := "bc1q" } { internal := [1] } [0]
      { internal := "addr1" } true { internal := "ch0" }
      { forwardingFeeBaseMsat := 3 } (some 5) true (some { forwardingFeeBaseMsat := 3 })
      sampleConfig none none none rfl).2.1 rfl⟩

/-- Claim C7: each list-returning facade operation returns exactly the
element-wise translation of the list the engine reported: the same length,
and the i-th element is the translation of the engine's i-th element, with no
re-sorting or de-duplication. -/
theorem c7_listwise (s : NodeState) (d : PaymentDirection) (h1 : s.poisoned = false) :
    ((NodePointer.list_channels s).1
        = Outcome.ok ((Engine.listChannels s.engine).map channelFromEngine)
      ∧ ((Engine.listChannels s.engine).map channelFromEngine).length
          = (Engine.listChannels s.engine).length
      ∧ ∀ i, ((Engine.listChannels s.engine).map channelFromEngine).get? i
          = ((Engine.listChannels s.engine).get? i).map channelFromEngine)
    ∧ ((NodePointer.list_payments s).1
        = Outcome.ok ((Engine.listPayments s.engine).map paymentFromEngine)
      ∧ ((Engine.listPayments s.engine).map paymentFromEngine).length
          = (Engine.listPayments s.engine).length
      ∧ ∀ i, ((Engine.listPayments s.engine).map paymentFromEngine).get? i
          = ((Engine.listPayments s.engine).get? i).map paymentFromEngine)
    ∧ ((NodePointer.list_peers s).1
        = Outcome.ok ((Engine.listPeers s.engine).map peerFromEngine)
      ∧ ((Engine.listPeers s.engine).map peerFromEngine).length
          = (Engine.listPeers s.engine).length
      ∧ ∀ i, ((Engine.listPeers s.engine).map peerFromEngine).get? i
          = ((Engine.listPeers s.engine).get? i).map peerFromEngine)
    ∧ ((NodePointer.list_payments_with_filter s d).1
        = Outcome.ok ((Engine.listPaymentsWithFilter s.engine
            (directionToEngine d)).map paymentFromEngine)
      ∧ ((Engine.listPaymentsWithFilter s.engine (directionToEngine d)).map
            paymentFromEngine).length
          = (Engine.listPaymentsWithFilter s.engine (directionToEngine d)).length
      ∧ ∀ i, ((Engine.listPaymentsWithFilter s.engine (directionToEngine d)).map
            paymentFromEngine).get? i
          = ((Engine.listPaymentsWithFilter s.engine (directionToEngine d)).get? i).map
              paymentFromEngine) := by
  refine ⟨⟨?_, ?_, ?_⟩, ⟨?_, ?_, ?_⟩, ⟨?_, ?_, ?_⟩, ⟨?_, ?_, ?_⟩⟩
  all_goals
    simp [NodePointer.list_channels, NodePointer.list_payments, NodePointer.list_peers,
      NodePointer.list_payments_with_filter, lockUnwrap, h1,
      List.get?_map, List.length_map]

/-- Claim C7, witness on the concrete running handle: the channel list is the
translation of the engine's single channel, and the inbound-filtered payment
list is the translation of the engine's single inbound payment. -/
theorem c7_witness :
    (NodePointer.list_channels runningState).1
      = Outcome.ok [{ channelId := "ch0", isReady := true }]
    ∧ (NodePointer.list_payments_with_filter runningState PaymentDirection.inbound).1
      = Outcome.ok [{ hash := [1], direction := PaymentDirection.inbound,
                      amountMsat := some 10, status := PaymentStatus.pending }] :=
  ⟨(c7_listwise runningState PaymentDirection.inbound rfl).1.1,
   (c7_listwise runningState PaymentDirection.inbound rfl).2.2.2.1⟩

/-- Claim C9: the facade connect_open_channel hands the engine its arguments
with node_id first and address second (the reverse of its own parameter
order) and channel config before the announce flag, and on engine success it
returns Ok unit, discarding the temporary channel id. -/
theorem c9_connect_open_channel (s : NodeState) (address : NetAddress)
    (node_id : PublicKey) (amt : Nat) (push : Option Nat) (ann : Bool)
    (cfg : Option ChannelConfig) (h1 : s.poisoned = false)
    (h2 : s.engine.phase = Phase.running) (h3 : s.engine.opFails = false) :
    (NodePointer.connect_open_channel s address node_id amt push ann cfg).1
      = Outcome.ok ()
    ∧ ((NodePointer.connect_open_channel s address node_id amt push ann cfg).2).engine.lastOpenArgs
        = some (EngineOpenChannelArgs.mk (publicKeyToEngine node_id)
            (netAddressToEngine address) amt push (cfg.map channelConfigToEngine) ann) := by
  have hf : s.engine.failing = none := by
    simp [EngineState.failing, h2, h3]
  constructor <;>
    simp [NodePointer.connect_open_channel, lockUnwrap, h1,
      Engine.connectOpenChannel, hf]

/-- Claim C9, witness on the concrete running handle and concrete arguments:
the recorded engine arguments show node_id before address and config before
the announce flag, and the outcome is Ok unit. -/
theorem c9_witness :
    (NodePointer.connect_open_channel runningState { internal := "addr1" }
        { internal := "02bb" } 1000 (some 5) true
        (some { forwardingFeeBaseMsat := 3 })).1 = Outcome.ok ()
    ∧ ((NodePointer.connect_open_channel runningState { internal := "addr1" }
        { internal := "02bb" } 1000 (some 5) true
        (some { forwardingFeeBaseMsat := 3 })).2).engine.lastOpenArgs
      = some (EngineOpenChannelArgs.mk "02bb" "addr1" 1000 (some 5)
          (some { forwardingFeeBaseMsat := 3 }) true) :=
  ⟨(c9_connect_open_channel runningState { internal := "addr1" } { internal := "02bb" }
      1000 (some 5) true (some { forwardingFeeBaseMsat := 3 }) rfl rfl rfl).1,
   (c9_connect_open_channel runningState { internal := "addr1" } { internal := "02bb" }
      1000 (some 5) true (some { forwardingFeeBaseMsat := 3 }) rfl rfl rfl).2⟩

/-- Claim C10: every NodePointer operation begins with lock plus unwrap, so on
a poisoned mutex every operation panics at the lock acquisition and returns no
error value: the outcome is the poison panic and the state is untouched. -/
theorem c10_poisoned_lock_panics (op : NodeOp) (s : NodeState)
    (h : s.poisoned = true) :
    runOp op s = (Outcome.panicked "PoisonError", s) := by
  cases op <;>
    simp [runOp, NodePointer.start, NodePointer.stop, NodePointer.event_handled,
      NodePointer.next_event, NodePointer.wait_until_next_event, NodePointer.node_id,
      NodePointer.listening_address, NodePointer.new_onchain_address,
      NodePointer.spendable_onchain_balance_sats, NodePointer.total_onchain_balance_sats,
      NodePointer.send_to_onchain_address, NodePointer.send_all_to_onchain_address,
      NodePointer.list_channels, NodePointer.connect, NodePointer.disconnect,
      NodePointer.connect_open_channel, NodePointer.sync_wallets,
      NodePointer.close_channel, NodePointer.update_channel_config,
      NodePointer.send_payment, NodePointer.send_payment_using_amount,
      NodePointer.send_spontaneous_payment, NodePointer.receive_payment,
      NodePointer.receive_variable_amount_payment, NodePointer.payment,
      NodePointer.remove_payment, NodePointer.list_payments_with_filter,
      NodePointer.list_payments, NodePointer.list_peers, NodePointer.sign_message,
      NodePointer.verify_signature, lockUnwrap, h, Outcome.discard]

/-- Claim C10, witness on the concrete poisoned handle: the start operation
panics with the poison message rather than returning an error value. -/
theorem c10_witness :
    runOp NodeOp.start poisonedState = (Outcome.panicked "PoisonError", poisonedState) :=
  c10_poisoned_lock_panics NodeOp.start poisonedState rfl

end Ldk
